import Mathlib

/-!
Shallow embedding of the numerauto daemon (src/numerauto) for verification:
dataset change detection (utils.check_dataset), training-data checks and the
round lifecycle dispatch (numerauto.Numerauto), the retrying remote client
(robust_numerapi.RobustNumerAPI with utils.wait_for_retry), the cooperative
sleeping helpers (utils.wait_until) and the round-boundary watcher
(Numerauto.wait_till_next_round).

Machine conventions: file contents are modelled by an oracle
`fs : String -> Option (List Row)` mapping a path to the parsed CSV rows
(`none` means the file is missing or unreadable); wall-clock instants are
integers (seconds); network interactions are modelled by an oracle giving the
outcome of each HTTP attempt.  Numerai CSV files all share one fixed column
schema, so the pandas shape comparison `old.shape != new.shape` reduces to
comparing row counts.
-/

/-- Row of a Numerai CSV dataset: the `id` column (the stable row identifier
used for re-indexing), the `data_type` column (used for filtering), and the
remaining cells of the row. -/
structure Row where
  id : Nat
  data_type : String
  values : List Int
deriving DecidableEq

/-- Restriction of a dataset to the rows whose `data_type` column equals the
given value; `none` keeps all rows.  Mirrors
`old_dataset[old_dataset[...] == data_type]` in utils.check_dataset
(src/numerauto/utils.py lines 46-49). -/
def filterData (data_type : Option String) (d : List Row) : List Row :=
  match data_type with
  | none => d
  | some t => d.filter (fun r => r.data_type == t)

/-- Comparison of dataset rows by the `id` index column. -/
def rowLe (a b : Row) : Prop := a.id ≤ b.id

instance : DecidableRel rowLe := fun a b => Nat.decLe a.id b.id

instance : IsTotal Row rowLe := ⟨fun a b => Nat.le_total a.id b.id⟩

instance : IsTrans Row rowLe := ⟨fun _ _ _ h1 h2 => Nat.le_trans h1 h2⟩

/-- Re-index a dataset by its `id` column and sort by that index.  Mirrors
`dataset.index = dataset.id; dataset.sort_index()` in utils.check_dataset
(src/numerauto/utils.py lines 56-61). -/
def sortById (d : List Row) : List Row :=
  List.insertionSort rowLe d

/-- Embedding of utils.check_dataset (src/numerauto/utils.py lines 18-70).
Returns whether the two datasets differ.  If the new file cannot be loaded the
answer is `false`; if only the old file is missing the answer is `true`;
otherwise both files are loaded, optionally filtered to one `data_type`,
declared changed when the row counts differ, and otherwise compared cell for
cell after re-indexing and sorting both by the row identifier. -/
def check_dataset (fs : String → Option (List Row))
    (filename_old filename_new : String) (data_type : Option String) : Bool :=
  match fs filename_new with
  | none => false
  | some new_raw =>
    match fs filename_old with
    | none => true
    | some old_raw =>
      let old_dataset := filterData data_type old_raw
      let new_dataset := filterData data_type new_raw
      if old_dataset.length ≠ new_dataset.length then
        true
      else if sortById new_dataset ≠ sortById old_dataset then
        true
      else
        false

/-- Persistent round-progress record of the daemon (the dictionary pickled by
Numerauto.save_state, with the two keys that Numerauto.load_state guarantees,
src/numerauto/numerauto.py lines 377-414). -/
structure PersistentState where
  last_round_processed : Option Nat
  last_round_trained : Option Nat
deriving DecidableEq

/-- Embedding of Numerauto.load_state (src/numerauto/numerauto.py lines
377-401): a missing or empty state file yields the record with both fields
unset; otherwise the stored record is used (load_state fills any missing key
with `None`, which the total record type already accounts for). -/
def loadState (stored : Option PersistentState) : PersistentState :=
  match stored with
  | none => { last_round_processed := none, last_round_trained := none }
  | some s => s

/-- Configuration entries of Numerauto relevant to the verified components
(src/numerauto/numerauto.py lines 78-95). -/
structure Config where
  data_directory : String
  check_validation_data : Bool
  wakeup_time : Int
  round_wait_interval : Int
  napi_wait_schedule : List Nat
deriving DecidableEq

/-- Embedding of Numerauto.get_dataset_path (src/numerauto/numerauto.py lines
298-309). -/
def datasetPath (cfg : Config) (round_number : Nat) : String :=
  cfg.data_directory ++ "/numerai_dataset_" ++ toString round_number

/-- Embedding of Numerauto._check_new_training_data (src/numerauto/numerauto.py
lines 174-197): when `last_round_trained` is unset the data is treated as new
without consulting any file; otherwise the validation subset of the tournament
files is compared first (when enabled), falling back to a full comparison of
the training files. -/
def checkNewTrainingData (fs : String → Option (List Row)) (cfg : Config)
    (s : PersistentState) (round_number : Nat) : Bool :=
  match s.last_round_trained with
  | none => true
  | some last_round_trained =>
    if cfg.check_validation_data &&
        check_dataset fs
          (datasetPath cfg last_round_trained ++ "/numerai_tournament_data.csv")
          (datasetPath cfg round_number ++ "/numerai_tournament_data.csv")
          (some ("validation")) then
      true
    else
      check_dataset fs
        (datasetPath cfg last_round_trained ++ "/numerai_training_data.csv")
        (datasetPath cfg round_number ++ "/numerai_training_data.csv")
        none

/-- Lifecycle hooks dispatched to every event handler during round processing
(src/numerauto/numerauto.py lines 146-172). -/
inductive Hook where
  | round_begin
  | new_training_data
  | new_tournament_data
  | cleanup
deriving DecidableEq

/-- Call sites of Numerauto.save_state during a run: the persist right after
the training hook (numerauto.py line 226), the persist at the end of round
processing (line 374), and the final persist after shutdown (line 487). -/
inductive WriteKind where
  | midRound
  | endRound
  | shutdown
deriving DecidableEq

/-- Observable action of the daemon: a hook invocation on a named handler for
a round, or a persisted write of the state record at one of the save_state
call sites. -/
inductive TraceAction where
  | call (handler : String) (hook : Hook) (round_number : Nat)
  | persist (kind : WriteKind) (s : PersistentState)
deriving DecidableEq

/-- Dispatch of one lifecycle event to every registered handler, in
registration order.  Mirrors the `for h in self.event_handlers` loops of
Numerauto._on_round_begin, _on_new_training_data, _on_new_tournament_data and
_on_cleanup (src/numerauto/numerauto.py lines 146-172). -/
def dispatch (handlers : List String) (hook : Hook) (round_number : Nat) :
    List TraceAction :=
  handlers.map (fun h => TraceAction.call h hook round_number)

/-- Embedding of Numerauto._on_round_begin_internal (src/numerauto/numerauto.py
lines 203-239), with the verdict of _check_new_training_data supplied as the
boolean `check`.  Returns the updated state record and the trace of hook
invocations and persisted writes, in execution order. -/
def onRoundBeginInternal (handlers : List String) (check : Bool)
    (s : PersistentState) (round_number : Nat) : PersistentState × List TraceAction :=
  let t1 := dispatch handlers Hook.round_begin round_number
  if check then
    let t2 := dispatch handlers Hook.new_training_data round_number
    let s1 := { s with last_round_trained := some round_number }
    let t3 := [TraceAction.persist WriteKind.midRound s1]
    let t4 := dispatch handlers Hook.new_tournament_data round_number
    let t5 := dispatch handlers Hook.cleanup round_number
    (s1, t1 ++ t2 ++ t3 ++ t4 ++ t5)
  else
    let t4 := dispatch handlers Hook.new_tournament_data round_number
    let t5 := dispatch handlers Hook.cleanup round_number
    (s, t1 ++ t4 ++ t5)

/-- Numerauto._on_round_begin_internal with the training-data verdict computed
by _check_new_training_data, exactly as at src/numerauto/numerauto.py line
220. -/
def onRoundBeginInternalFS (fs : String → Option (List Row)) (cfg : Config)
    (handlers : List String) (s : PersistentState) (round_number : Nat) :
    PersistentState × List TraceAction :=
  onRoundBeginInternal handlers (checkNewTrainingData fs cfg s round_number)
    s round_number

/-- Embedding of Numerauto._run_new_round (src/numerauto/numerauto.py lines
349-374), past the download-validation loop: the round lifecycle dispatch,
then marking the round processed, then the end-of-round persisted write. -/
def runNewRound (handlers : List String) (check : Bool) (s : PersistentState)
    (round_number : Nat) : PersistentState × List TraceAction :=
  let r1 := onRoundBeginInternal handlers check s round_number
  let s2 := { r1.1 with last_round_processed := some round_number }
  (s2, r1.2 ++ [TraceAction.persist WriteKind.endRound s2])

/-- Sequence of processed rounds of one daemon run: for each round its number
together with the verdict of the training-data check for that round (the
boolean that _check_new_training_data returns when _on_round_begin_internal
runs for it). -/
def runRounds (handlers : List String) (s : PersistentState) :
    List (Nat × Bool) → PersistentState × List TraceAction
  | [] => (s, [])
  | (n, c) :: rest =>
    let r1 := runNewRound handlers c s n
    let r2 := runRounds handlers r1.1 rest
    (r2.1, r1.2 ++ r2.2)

/-- Embedding of a full Numerauto.run execution (src/numerauto/numerauto.py
lines 418-487) that starts from a fresh state file, processes the given
rounds and shuts down: load_state yields the unset record, each round is
processed by _run_new_round, and a final persisted write follows the shutdown
event. -/
def runDaemon (handlers : List String) (rounds : List (Nat × Bool)) :
    PersistentState × List TraceAction :=
  let s0 := loadState none
  let r := runRounds handlers s0 rounds
  (r.1, r.2 ++ [TraceAction.persist WriteKind.shutdown r.1])

/-- Property asserted by the specification for every persisted write: whenever
both fields of the written record are set, last_round_trained does not exceed
last_round_processed.  Hook invocations satisfy it vacuously. -/
def claimWriteOk (a : TraceAction) : Bool :=
  match a with
  | TraceAction.persist _ w =>
    match w.last_round_trained, w.last_round_processed with
    | some t, some p => decide (t ≤ p)
    | _, _ => true
  | _ => true

/-- Amended per-write property: the persisted writes at the end of a round and
at shutdown satisfy last_round_trained ≤ last_round_processed whenever both
are set, while the mid-round write (made right after the training hook and
before the round is marked processed) instead has
last_round_processed < last_round_trained whenever both are set. -/
def amendedWriteOk (a : TraceAction) : Bool :=
  match a with
  | TraceAction.persist k w =>
    match w.last_round_trained, w.last_round_processed with
    | some t, some p =>
      match k with
      | WriteKind.midRound => decide (p < t)
      | _ => decide (t ≤ p)
    | _, _ => true
  | _ => true

/-- Validity of a round sequence for a daemon whose current
last_round_processed is the first argument: the service reports strictly
increasing round numbers, so each processed round number exceeds the
previously processed one. -/
def roundsValid : Option Nat → List (Nat × Bool) → Bool
  | _, [] => true
  | none, (n, _) :: rest => roundsValid (some n) rest
  | some p, (n, _) :: rest => decide (p < n) && roundsValid (some n) rest

/-- Outcome of one HTTP POST attempt against the tournament API, as seen by
RobustNumerAPI.__raw_query_patched: either the request fails at the transport
layer (a requests.RequestException such as ConnectionError or Timeout), or a
response arrives with a status code, an optional application-level error
payload, and a data payload. -/
inductive NetOutcome where
  | connFail
  | response (status : Nat) (errors : Option String) (payload : String)
deriving DecidableEq

/-- Exceptions that RobustNumerAPI.__raw_query_patched can raise
(src/numerauto/robust_numerapi.py lines 43-71): httpError is the
requests.HTTPError raised by r.raise_for_status() on a 4xx or 5xx status,
connError stands for a transport-layer requests.RequestException, authError is
NumerAPIAuthorizationError and apiError is NumerAPIError carrying the error
payload of the service. -/
inductive Exc where
  | httpError (status : Nat)
  | connError
  | authError
  | apiError (errors : String)
deriving DecidableEq

/-- Whether an exception is an instance of requests.RequestException, the class
caught by the retry loop of RobustNumerAPI.raw_query.  In the requests
library, HTTPError (raised by raise_for_status) is a subclass of
RequestException, as are the transport-layer errors; the NumerAPIError and
NumerAPIAuthorizationError classes defined in robust_numerapi.py derive from
plain Exception and are not RequestExceptions. -/
def isRequestException : Exc → Bool
  | Exc.httpError _ => true
  | Exc.connError => true
  | Exc.authError => false
  | Exc.apiError _ => false

/-- Result of one call of RobustNumerAPI.__raw_query_patched: the decoded
payload, or a raised exception. -/
inductive PatchedResult where
  | ok (payload : String)
  | raised (e : Exc)
deriving DecidableEq

/-- Embedding of RobustNumerAPI.__raw_query_patched
(src/numerauto/robust_numerapi.py lines 43-71): an operation that requires
authorization fails with NumerAPIAuthorizationError when no API token is
configured; otherwise the POST is issued, r.raise_for_status() turns any 4xx
or 5xx status into an HTTPError, and a decoded body containing an errors field
raises NumerAPIError with that payload. -/
def rawQueryPatched (token : Option (String × String)) (authorization : Bool)
    (net : NetOutcome) : PatchedResult :=
  if authorization && token == none then
    PatchedResult.raised Exc.authError
  else
    match net with
    | NetOutcome.connFail => PatchedResult.raised Exc.connError
    | NetOutcome.response status errors payload =>
      if 400 ≤ status then
        PatchedResult.raised (Exc.httpError status)
      else
        match errors with
        | some e => PatchedResult.raised (Exc.apiError e)
        | none => PatchedResult.ok payload

/-- Hardcoded retry schedule of utils.wait_for_retry
(src/numerauto/utils.py line 115): five 1-minute waits, three 10-minute waits,
three 1-hour waits. -/
def waiting_schedule : List Nat := [60, 60, 60, 60, 60, 600, 600, 600, 3600, 3600, 3600]

/-- Embedding of utils.wait_for_retry (src/numerauto/utils.py lines 107-120):
`none` is the RuntimeError raised once the attempt number reaches the length
of the hardcoded schedule, otherwise the number of seconds slept before the
next retry.  The function has no schedule parameter: it always consults
waiting_schedule. -/
def wait_for_retry (attempt_number : Nat) : Option Nat :=
  if waiting_schedule.length ≤ attempt_number then
    none
  else
    some (waiting_schedule.getD attempt_number 0)

/-- Result of RobustNumerAPI.raw_query: the payload of a successful attempt, a
propagated non-RequestException exception, the RuntimeError raised by
wait_for_retry once the schedule is exhausted, or fuel exhaustion of the
model (never reached from rawQuery, whose fuel bounds the loop iterations of
the source, see rawQueryGo). -/
inductive QueryResult where
  | ok (payload : String)
  | raised (e : Exc)
  | exhausted
  | outOfFuel
deriving DecidableEq

/-- Loop of RobustNumerAPI.raw_query (src/numerauto/robust_numerapi.py lines
73-89), returning the result together with the list of sleeps performed, in
order.  Each iteration issues one attempt; a raised RequestException leads to
wait_for_retry (whose RuntimeError, after the schedule is exhausted,
propagates as QueryResult.exhausted) and a retry with the attempt counter
incremented; any other exception propagates immediately.  The gas parameter
only bounds the recursion: since wait_for_retry raises once
attempt_number reaches the schedule length, the source loop runs at most
length + 1 iterations, and rawQuery supplies exactly that much gas, so
QueryResult.outOfFuel is unreachable from rawQuery. -/
def rawQueryGo (token : Option (String × String)) (outcomes : Nat → NetOutcome)
    (authorization : Bool) : Nat → Nat → QueryResult × List Nat
  | _, 0 => (QueryResult.outOfFuel, [])
  | attempt_number, gas + 1 =>
    match rawQueryPatched token authorization (outcomes attempt_number) with
    | PatchedResult.ok payload => (QueryResult.ok payload, [])
    | PatchedResult.raised e =>
      if isRequestException e then
        match wait_for_retry attempt_number with
        | none => (QueryResult.exhausted, [])
        | some w =>
          let r := rawQueryGo token outcomes authorization (attempt_number + 1) gas
          (r.1, w :: r.2)
      else
        (QueryResult.raised e, [])

/-- RobustNumerAPI instance data: the optional API token of the underlying
NumerAPI, and the retry_wait_schedule keyword that Numerauto.__init__ passes
to the constructor (src/numerauto/numerauto.py lines 103-104).  No code in
src/numerauto ever reads retry_wait_schedule back: the retry pacing comes from
utils.wait_for_retry alone. -/
structure RobustNumerAPI where
  token : Option (String × String)
  retry_wait_schedule : List Nat
deriving DecidableEq

/-- Embedding of RobustNumerAPI.raw_query (src/numerauto/robust_numerapi.py
lines 73-89) for a given sequence of per-attempt network outcomes: the loop
starts at attempt 0, and the gas waiting_schedule.length + 1 covers every
iteration the source loop can perform. -/
def rawQuery (client : RobustNumerAPI) (outcomes : Nat → NetOutcome)
    (authorization : Bool) : QueryResult × List Nat :=
  rawQueryGo client.token outcomes authorization 0 (waiting_schedule.length + 1)

/-- Whether one attempt of raw_query fails with an exception that the retry
loop catches (a requests.RequestException). -/
def attemptTransient (token : Option (String × String)) (authorization : Bool)
    (net : NetOutcome) : Bool :=
  match rawQueryPatched token authorization net with
  | PatchedResult.raised e => isRequestException e
  | PatchedResult.ok _ => false

/-- Chunks of sleep performed by utils.wait_until (src/numerauto/utils.py
lines 89-104) when the target timestamp lies the given whole number of seconds
in the future: the loop body executes time.sleep(min(1, remaining)) until the
remaining time reaches zero.  The function consults no cancellation flag of
any kind; its only inputs are the timestamp and the clock. -/
def waitUntilChunks : Nat → List Nat
  | 0 => []
  | remaining + 1 => min 1 (remaining + 1) :: waitUntilChunks remaining

/-- Round details returned by RobustNumerAPI.get_current_round_details
(src/numerauto/robust_numerapi.py lines 108-136), restricted to the fields
that Numerauto.wait_till_next_round reads: the round number and the parsed
closeTime (seconds). -/
structure RoundInfo where
  number : Nat
  closeTime : Int
deriving DecidableEq

/-- Blocking wait performed by one iteration of Numerauto.wait_till_next_round:
either wait_until at an absolute target instant, or wait for a number of
seconds. -/
inductive WaitAction where
  | waitUntil (target : Int)
  | sleep (seconds : Int)
deriving DecidableEq

/-- Wait that one iteration of Numerauto.wait_till_next_round performs
(src/numerauto/numerauto.py lines 279-286), computed from the closeTime of the
latest response and the current clock: with more than wakeup_time seconds
left, wait until wakeup_time - 5 seconds before the close; otherwise sleep
the remaining time capped by round_wait_interval. -/
def waitAction (cfg : Config) (closeTime now : Int) : WaitAction :=
  let seconds_wait := closeTime - now + 5
  if cfg.wakeup_time < seconds_wait then
    WaitAction.waitUntil (closeTime - (cfg.wakeup_time - 5))
  else
    WaitAction.sleep (min seconds_wait cfg.round_wait_interval)

/-- Loop of Numerauto.wait_till_next_round (src/numerauto/numerauto.py lines
266-295): responses i is the round details returned by the i-th poll of the
API (response 0 being the one fetched before the loop), nows i is the clock
when iteration i computes its wait, and n0 is the round number observed at the
start of the cycle.  While the latest response still reports round n0, the
iteration computes its wait from the closeTime of that latest response and
polls again; the loop exits with the first response whose number differs.  The
fuel only bounds the recursion of the model: the source loops until the round
number changes. -/
def waitLoop (responses : Nat → RoundInfo) (nows : Nat → Int) (cfg : Config)
    (n0 : Nat) : Nat → Nat → Option RoundInfo × List WaitAction
  | _, 0 => (none, [])
  | i, fuel + 1 =>
    let cur := responses i
    if cur.number = n0 then
      let a := waitAction cfg cur.closeTime (nows i)
      let r := waitLoop responses nows cfg n0 (i + 1) fuel
      (r.1, a :: r.2)
    else
      (some cur, [])

/-- Embedding of Numerauto.wait_till_next_round (src/numerauto/numerauto.py
lines 242-295): the reference round number is the number of the response
fetched before the loop, and the loop starts by re-examining that same
response (new_round_info = round_info), so iteration 0 inspects responses 0. -/
def wait_till_next_round (responses : Nat → RoundInfo) (nows : Nat → Int)
    (cfg : Config) (fuel : Nat) : Option RoundInfo × List WaitAction :=
  waitLoop responses nows cfg (responses 0).number 0 fuel

/-- Concrete file system for witnesses: only the new dataset file exists. -/
def fsOldMissingW : String → Option (List Row) :=
  fun p => if p = "new" then some [⟨1, "live", [5]⟩] else none

/-- Concrete file system for witnesses: only the old dataset file exists. -/
def fsNewMissingW : String → Option (List Row) :=
  fun p => if p = "old" then some [⟨1, "live", [5]⟩] else none

/-- Concrete file system for witnesses: the two dataset files hold the same
rows in different order. -/
def fsPermW : String → Option (List Row) :=
  fun p =>
    if p = "old" then some [⟨1, "live", [5]⟩, ⟨2, "live", [6]⟩]
    else if p = "new" then some [⟨2, "live", [6]⟩, ⟨1, "live", [5]⟩] else none

/-- Concrete file system for witnesses: the two dataset files have the same
row count but one cell differs after sorting by the identifier. -/
def fsDiffW : String → Option (List Row) :=
  fun p =>
    if p = "old" then some [⟨1, "live", [5]⟩, ⟨2, "live", [6]⟩]
    else if p = "new" then some [⟨2, "live", [7]⟩, ⟨1, "live", [5]⟩] else none

/-- Concrete poll responses for the round watcher witness: the first two polls
report round 100, with the close time moved later on the second poll, and the
third poll reports round 101. -/
def watcherResponsesW : Nat → RoundInfo :=
  fun i => if i = 0 then ⟨100, 1000⟩ else if i = 1 then ⟨100, 2000⟩ else ⟨101, 5000⟩

/-- Concrete clock for the round watcher witness. -/
def watcherNowsW : Nat → Int := fun i => 900 + i

/-- Concrete configuration for the round watcher witness. -/
def watcherCfgW : Config := ⟨"./data", true, 360, 60, []⟩

/-- Helper: a list that is pairwise non-decreasing on row identifiers and has
no duplicate identifier is pairwise strictly increasing on identifiers. -/
theorem pairwise_id_lt_of_sorted_nodup {l : List Row} (hs : l.Pairwise rowLe)
    (hn : (l.map Row.id).Nodup) : l.Pairwise (fun a b => a.id < b.id) := by
  have hne : l.Pairwise (fun a b => a.id ≠ b.id) := by
    rw [List.Nodup, List.pairwise_map] at hn
    exact hn
  exact (hs.and hne).imp (fun h => lt_of_le_of_ne h.1 h.2)

/-- Helper: two lists that are permutations of each other and both pairwise
strictly increasing on row identifiers are equal. -/
theorem eq_of_perm_of_pairwise_id_lt :
    ∀ {l₁ l₂ : List Row}, l₁.Perm l₂ → l₁.Pairwise (fun a b => a.id < b.id) →
      l₂.Pairwise (fun a b => a.id < b.id) → l₁ = l₂
  | [], l₂, hp, _, _ => (hp.symm.eq_nil).symm
  | a :: t₁, [], hp, _, _ => absurd hp.eq_nil (by simp)
  | a :: t₁, b :: t₂, hp, h₁, h₂ => by
    have hab : a = b := by
      have ha2 : a ∈ b :: t₂ := hp.subset (List.mem_cons_self a t₁)
      have hb1 : b ∈ a :: t₁ := hp.symm.subset (List.mem_cons_self b t₂)
      rcases List.mem_cons.mp ha2 with h | ha2t
      · exact h
      rcases List.mem_cons.mp hb1 with h | hb1t
      · exact h.symm
      have hba : b.id < a.id := (List.pairwise_cons.mp h₂).1 a ha2t
      have hab : a.id < b.id := (List.pairwise_cons.mp h₁).1 b hb1t
      exact absurd hba (lt_asymm hab)
    subst hab
    have ht : t₁ = t₂ :=
      eq_of_perm_of_pairwise_id_lt hp.cons_inv
        (List.pairwise_cons.mp h₁).2 (List.pairwise_cons.mp h₂).2
    rw [ht]

/-- Helper: sortById permutes its input. -/
theorem sortById_perm (l : List Row) : (sortById l).Perm l :=
  List.perm_insertionSort rowLe l

/-- Helper: sortById sorts by the row identifier. -/
theorem sortById_sorted (l : List Row) : (sortById l).Pairwise rowLe :=
  List.sorted_insertionSort rowLe l

/-- Helper: sorting by the row identifier identifies lists that hold the same
rows in different order, provided the identifiers are distinct. -/
theorem sortById_eq_of_perm {o n : List Row} (hp : o.Perm n)
    (hn : (o.map Row.id).Nodup) : sortById o = sortById n := by
  have hn2 : (n.map Row.id).Nodup := ((hp.map Row.id).nodup_iff).mp hn
  have hno : ((sortById o).map Row.id).Nodup :=
    ((sortById_perm o).map Row.id).nodup_iff.mpr hn
  have hnn : ((sortById n).map Row.id).Nodup :=
    ((sortById_perm n).map Row.id).nodup_iff.mpr hn2
  exact eq_of_perm_of_pairwise_id_lt
    ((sortById_perm o).trans (hp.trans (sortById_perm n).symm))
    (pairwise_id_lt_of_sorted_nodup (sortById_sorted o) hno)
    (pairwise_id_lt_of_sorted_nodup (sortById_sorted n) hnn)

/-- Helper: when every attempt fails with an exception that the retry loop
catches, the loop sleeps through the rest of the hardcoded schedule and ends
with the RuntimeError of wait_for_retry. -/
theorem rawQueryGo_transient (token : Option (String × String))
    (outcomes : Nat → NetOutcome) (authorization : Bool)
    (h : ∀ i, attemptTransient token authorization (outcomes i) = true) :
    ∀ gas attempt_number, attempt_number + gas = waiting_schedule.length + 1 →
      attempt_number ≤ waiting_schedule.length →
      rawQueryGo token outcomes authorization attempt_number gas =
        (QueryResult.exhausted, waiting_schedule.drop attempt_number) := by
  intro gas
  induction gas with
  | zero => intro attempt_number h1 h2; omega
  | succ g ih =>
    intro attempt_number h1 h2
    have ht := h attempt_number
    unfold attemptTransient at ht
    rcases hpq : rawQueryPatched token authorization (outcomes attempt_number) with p | e
    · rw [hpq] at ht; exact absurd ht (by simp)
    · rw [hpq] at ht
      have ht2 : isRequestException e = true := ht
      rcases Nat.lt_or_ge attempt_number waiting_schedule.length with hlt | hge
      · have hwfr : wait_for_retry attempt_number =
            some (waiting_schedule.getD attempt_number 0) := by
          unfold wait_for_retry
          rw [if_neg (by omega)]
        have hrec := ih (attempt_number + 1) (by omega) (by omega)
        simp only [rawQueryGo, hpq, ht2, if_true, hwfr, hrec]
        rw [List.getD_eq_getElem waiting_schedule 0 hlt,
          ← List.drop_eq_getElem_cons hlt]
      · have heq : attempt_number = waiting_schedule.length := by omega
        have hwfr : wait_for_retry attempt_number = none := by
          unfold wait_for_retry
          rw [if_pos (by omega)]
        simp only [rawQueryGo, hpq, ht2, if_true, hwfr]
        rw [heq, List.drop_length]

/-- Helper: unfolding of the lifecycle dispatch when the training-data check
is negative. -/
theorem onRoundBeginInternal_false_eq (handlers : List String)
    (s : PersistentState) (n : Nat) :
    onRoundBeginInternal handlers false s n =
      (s, dispatch handlers Hook.round_begin n
        ++ dispatch handlers Hook.new_tournament_data n
        ++ dispatch handlers Hook.cleanup n) := rfl

/-- Helper: unfolding of the lifecycle dispatch when the training-data check
is positive. -/
theorem onRoundBeginInternal_true_eq (handlers : List String)
    (s : PersistentState) (n : Nat) :
    onRoundBeginInternal handlers true s n =
      (⟨s.last_round_processed, some n⟩,
        dispatch handlers Hook.round_begin n
        ++ dispatch handlers Hook.new_training_data n
        ++ [TraceAction.persist WriteKind.midRound ⟨s.last_round_processed, some n⟩]
        ++ dispatch handlers Hook.new_tournament_data n
        ++ dispatch handlers Hook.cleanup n) := rfl

/-- Helper: unfolding of one processed round when the training-data check is
negative. -/
theorem runNewRound_false_eq (handlers : List String) (s : PersistentState)
    (n : Nat) :
    runNewRound handlers false s n =
      (⟨some n, s.last_round_trained⟩,
        dispatch handlers Hook.round_begin n
        ++ dispatch handlers Hook.new_tournament_data n
        ++ dispatch handlers Hook.cleanup n
        ++ [TraceAction.persist WriteKind.endRound ⟨some n, s.last_round_trained⟩]) := rfl

/-- Helper: unfolding of one processed round when the training-data check is
positive. -/
theorem runNewRound_true_eq (handlers : List String) (s : PersistentState)
    (n : Nat) :
    runNewRound handlers true s n =
      (⟨some n, some n⟩,
        dispatch handlers Hook.round_begin n
        ++ dispatch handlers Hook.new_training_data n
        ++ [TraceAction.persist WriteKind.midRound ⟨s.last_round_processed, some n⟩]
        ++ dispatch handlers Hook.new_tournament_data n
        ++ dispatch handlers Hook.cleanup n
        ++ [TraceAction.persist WriteKind.endRound ⟨some n, some n⟩]) := rfl

/-- Helper: invariant of the persistent state between rounds: whenever the
trained field is set, the processed field is set at least as high. -/
def StateInv (s : PersistentState) : Prop :=
  ∀ t, s.last_round_trained = some t →
    ∃ p, s.last_round_processed = some p ∧ t ≤ p

/-- Helper: hook invocations satisfy the amended per-write predicate
trivially. -/
theorem dispatch_all_amended (handlers : List String) (hook : Hook) (n : Nat) :
    (dispatch handlers hook n).all amendedWriteOk = true := by
  simp only [dispatch, List.all_eq_true, List.mem_map]
  rintro a ⟨h, _, rfl⟩
  rfl

/-- Helper: processing one round from a state satisfying the invariant, with a
round number above the processed field, keeps the amended per-write property
for every persisted write and restores the invariant. -/
theorem runNewRound_ok (handlers : List String) (check : Bool)
    (s : PersistentState) (n : Nat) (hInv : StateInv s)
    (hlt : ∀ p, s.last_round_processed = some p → p < n) :
    ((runNewRound handlers check s n).2.all amendedWriteOk = true) ∧
      StateInv (runNewRound handlers check s n).1 ∧
      (runNewRound handlers check s n).1.last_round_processed = some n := by
  cases check with
  | false =>
    rw [runNewRound_false_eq]
    refine ⟨?_, ?_, rfl⟩
    · simp only [List.all_append, dispatch_all_amended, Bool.true_and,
        List.all_cons, List.all_nil, Bool.and_true]
      rcases htr : s.last_round_trained with _ | t
      · simp [amendedWriteOk]
      · rcases hInv t htr with ⟨p, hp, htp⟩
        have hpn : p < n := hlt p hp
        simp only [amendedWriteOk]
        simp
        omega
    · intro t htr
      rcases hInv t htr with ⟨p, hp, htp⟩
      have hpn : p < n := hlt p hp
      refine ⟨n, rfl, ?_⟩
      omega
  | true =>
    rw [runNewRound_true_eq]
    refine ⟨?_, ?_, rfl⟩
    · simp only [List.all_append, dispatch_all_amended, Bool.true_and,
        List.all_cons, List.all_nil, Bool.and_true, Bool.and_eq_true]
      refine ⟨?_, ?_⟩
      · rcases hpr : s.last_round_processed with _ | p
        · simp [amendedWriteOk]
        · have hpn : p < n := hlt p hpr
          simp only [amendedWriteOk]
          simp
          omega
      · simp [amendedWriteOk]
    · intro t htr
      have htn : some n = some t := htr
      injection htn with htn
      subst htn
      exact ⟨n, rfl, le_refl n⟩

/-- Helper: processing a valid sequence of rounds from a state satisfying the
invariant keeps the amended per-write property for every persisted write and
preserves the invariant. -/
theorem runRounds_ok (handlers : List String) :
    ∀ (rounds : List (Nat × Bool)) (s : PersistentState), StateInv s →
      roundsValid s.last_round_processed rounds = true →
      ((runRounds handlers s rounds).2.all amendedWriteOk = true) ∧
        StateInv (runRounds handlers s rounds).1
  | [], s, hInv, _ => ⟨rfl, hInv⟩
  | (n, c) :: rest, s, hInv, hval => by
    have hlt : ∀ p, s.last_round_processed = some p → p < n := by
      intro p hp
      rw [hp] at hval
      simp only [roundsValid, Bool.and_eq_true, decide_eq_true_eq] at hval
      exact hval.1
    have hrest : roundsValid (some n) rest = true := by
      rcases hp : s.last_round_processed with _ | p <;> rw [hp] at hval
      · exact hval
      · simp only [roundsValid, Bool.and_eq_true] at hval
        exact hval.2
    obtain ⟨hall1, hInv1, hproc1⟩ := runNewRound_ok handlers c s n hInv hlt
    obtain ⟨hall2, hInv2⟩ := runRounds_ok handlers rest
      (runNewRound handlers c s n).1 hInv1 (by rw [hproc1]; exact hrest)
    refine ⟨?_, hInv2⟩
    simp only [runRounds, List.all_append, hall1, hall2, Bool.and_self]

/-- Helper: characterization of the fine-poll loop of wait_till_next_round:
when the loop returns a response, that response is the first one whose round
number differs from the reference number, and the wait performed by each
iteration is computed from the closeTime of the response that iteration
examined (the latest one) and the clock at that iteration. -/
theorem waitLoop_spec (responses : Nat → RoundInfo) (nows : Nat → Int)
    (cfg : Config) (n0 : Nat) :
    ∀ (fuel i : Nat) (r : RoundInfo) (ws : List WaitAction),
      waitLoop responses nows cfg n0 i fuel = (some r, ws) →
      r.number ≠ n0 ∧ r = responses (i + ws.length) ∧
      ws = (List.range ws.length).map
        (fun j => waitAction cfg (responses (i + j)).closeTime (nows (i + j)))
  | 0, i, r, ws, h => by exact absurd h (by simp [waitLoop])
  | fuel + 1, i, r, ws, h => by
    simp only [waitLoop] at h
    by_cases hcur : (responses i).number = n0
    · rw [if_pos hcur] at h
      rcases hrec : waitLoop responses nows cfg n0 (i + 1) fuel with ⟨or, ows⟩
      rw [hrec] at h
      have h1 : or = some r := congrArg Prod.fst h
      have h2 : waitAction cfg (responses i).closeTime (nows i) :: ows = ws :=
        congrArg Prod.snd h
      subst h2
      obtain ⟨hne, hr, hws⟩ := waitLoop_spec responses nows cfg n0 fuel (i + 1) r ows
        (by rw [hrec, h1])
      refine ⟨hne, ?_, ?_⟩
      · rw [hr]
        congr 1
        simp only [List.length_cons]
        omega
      · have hhead : waitAction cfg (responses (i + 0)).closeTime (nows (i + 0)) =
            waitAction cfg (responses i).closeTime (nows i) := by simp
        simp only [List.length_cons, List.range_succ_eq_map, List.map_cons,
          List.map_map, hhead]
        congr 1
        rw [hws]
        simp only [List.length_map, List.length_range]
        apply List.map_congr_left
        intro j hj
        simp only [Function.comp_apply]
        have hidx : i + 1 + j = i + (j + 1) := by omega
        rw [hidx]
    · rw [if_neg hcur] at h
      have h1 : some (responses i) = some r := congrArg Prod.fst h
      have h2 : ([] : List WaitAction) = ws := congrArg Prod.snd h
      subst h2
      injection h1 with h1
      subst h1
      exact ⟨hcur, by simp, rfl⟩

/-- C1 counterexample: in a run from the fresh state over the strictly
increasing rounds 1 and 2, both with new training data, some persisted write
has both fields set with last_round_trained exceeding last_round_processed:
the mid-round persist of round 2 stores last_round_trained = 2 while
last_round_processed is still 1.  The claimed invariant therefore fails even
though both fields start unset and the round sequence is valid. -/
theorem persistInvariantCounterexample :
    roundsValid none [(1, true), (2, true)] = true ∧
    loadState none = ⟨none, none⟩ ∧
    TraceAction.persist WriteKind.midRound ⟨some 1, some 2⟩ ∈
      (runDaemon ["A"] [(1, true), (2, true)]).2 ∧
    ¬ ((runDaemon ["A"] [(1, true), (2, true)]).2.all claimWriteOk = true) := by
  refine ⟨by decide, rfl, by decide, by decide⟩

/-- C1 (amended): both fields start unset, and for every run of the daemon
from the fresh state over strictly increasing round numbers, every persisted
write at the end of a round or at shutdown satisfies
last_round_trained ≤ last_round_processed whenever both are set, while the
mid-round persist made right after the training hook instead satisfies
last_round_processed < last_round_trained whenever both are set (the trained
round is the one currently being processed, which is marked processed only by
the subsequent end-of-round persist). -/
theorem persistInvariantAmended (handlers : List String)
    (rounds : List (Nat × Bool)) (h : roundsValid none rounds = true) :
    loadState none = ⟨none, none⟩ ∧
    (runDaemon handlers rounds).2.all amendedWriteOk = true := by
  refine ⟨rfl, ?_⟩
  have h0 : StateInv (loadState none) := by
    intro t ht
    exact absurd ht (by simp [loadState])
  obtain ⟨hall, hInv⟩ := runRounds_ok handlers rounds (loadState none) h0 h
  simp only [runDaemon, List.all_append, hall, Bool.true_and, List.all_cons,
    List.all_nil, Bool.and_true]
  rcases htr : (runRounds handlers (loadState none) rounds).1.last_round_trained
    with _ | t
  · simp [amendedWriteOk, htr]
  · rcases hInv t htr with ⟨p, hp, htp⟩
    simp only [amendedWriteOk, htr, hp]
    exact decide_eq_true htp

/-- C1 witness for the amended theorem: a concrete valid two-round run whose
persisted writes all satisfy the amended per-write property. -/
theorem persistInvariantAmendedWitness :
    loadState none = ⟨none, none⟩ ∧
    (runDaemon ["A"] [(1, true), (2, false)]).2.all amendedWriteOk = true :=
  persistInvariantAmended ["A"] [(1, true), (2, false)] (by decide)

/-- C2: for every file system, configuration, handler list, state and round,
the trace of one round lifecycle dispatch is exactly: round_begin for all
handlers in registration order, then, only if the training-data change check
returns true, new_training_data for all handlers in registration order
followed immediately by the persisted state write, then new_tournament_data
for all handlers in registration order, then cleanup for all handlers in
registration order; when the check is false every new_training_data call is
skipped and cleanup still follows round_begin. -/
theorem lifecycleDispatchOrder (fs : String → Option (List Row)) (cfg : Config)
    (handlers : List String) (s : PersistentState) (round_number : Nat) :
    (onRoundBeginInternalFS fs cfg handlers s round_number).2 =
      handlers.map (fun h => TraceAction.call h Hook.round_begin round_number)
      ++ (if checkNewTrainingData fs cfg s round_number then
            handlers.map
              (fun h => TraceAction.call h Hook.new_training_data round_number)
            ++ [TraceAction.persist WriteKind.midRound
                  ⟨s.last_round_processed, some round_number⟩]
          else [])
      ++ handlers.map
          (fun h => TraceAction.call h Hook.new_tournament_data round_number)
      ++ handlers.map (fun h => TraceAction.call h Hook.cleanup round_number) := by
  unfold onRoundBeginInternalFS
  rcases checkNewTrainingData fs cfg s round_number with _ | _
  · rw [onRoundBeginInternal_false_eq]
    simp [dispatch, List.append_assoc]
  · rw [onRoundBeginInternal_true_eq]
    simp [dispatch, List.append_assoc]

/-- C3 counterexample: a query whose every attempt receives an HTTP 500
response is retried through the whole backoff schedule (eleven sleeps) until
the schedule is exhausted, instead of being propagated immediately with no
backoff sleep: raise_for_status turns the 4xx/5xx status into an HTTPError,
which is a requests.RequestException and is therefore caught by the retry
loop. -/
theorem httpErrorRetriedCounterexample :
    rawQuery ⟨none, []⟩ (fun _ => NetOutcome.response 500 none ("")) false =
      (QueryResult.exhausted, waiting_schedule) ∧
    waiting_schedule ≠ [] := by
  refine ⟨by decide, by decide⟩

/-- C3 (amended): an application-level error payload (NumerAPIError) or an
authorization failure (NumerAPIAuthorizationError) is never retried: any
exception that is not a requests.RequestException propagates out of the first
attempt immediately, with no backoff sleep; an HTTP 4xx/5xx response, by
contrast, raises HTTPError, which is a RequestException, and is retried on
the backoff schedule like a transient failure. -/
theorem nonTransientErrorHandling :
    (∀ (client : RobustNumerAPI) (outcomes : Nat → NetOutcome)
        (authorization : Bool) (e : Exc),
        rawQueryPatched client.token authorization (outcomes 0) =
          PatchedResult.raised e →
        isRequestException e = false →
        rawQuery client outcomes authorization = (QueryResult.raised e, [])) ∧
    (∀ (client : RobustNumerAPI) (outcomes : Nat → NetOutcome)
        (authorization : Bool) (status : Nat),
        (∀ i, rawQueryPatched client.token authorization (outcomes i) =
          PatchedResult.raised (Exc.httpError status)) →
        rawQuery client outcomes authorization =
          (QueryResult.exhausted, waiting_schedule)) := by
  constructor
  · intro client outcomes authorization e hpq hnr
    show rawQueryGo client.token outcomes authorization 0
      (waiting_schedule.length + 1) = _
    simp [rawQueryGo, hpq, hnr]
  · intro client outcomes authorization status h
    have ht : ∀ i, attemptTransient client.token authorization (outcomes i) = true := by
      intro i
      unfold attemptTransient
      rw [h i]
      rfl
    have h2 := rawQueryGo_transient client.token outcomes authorization ht
      (waiting_schedule.length + 1) 0 (by omega) (by omega)
    simpa [rawQuery] using h2

/-- C3 witness for the amended theorem: an application error payload and an
authorization failure each propagate from the first attempt with no sleeps,
while an HTTP 404 response is retried until the schedule is exhausted. -/
theorem nonTransientErrorHandlingWitness :
    rawQuery ⟨none, []⟩ (fun _ => NetOutcome.response 200 (some ("boom")) (""))
      false = (QueryResult.raised (Exc.apiError ("boom")), []) ∧
    rawQuery ⟨none, []⟩ (fun _ => NetOutcome.response 200 none ("data")) true =
      (QueryResult.raised Exc.authError, []) ∧
    rawQuery ⟨none, []⟩ (fun _ => NetOutcome.response 404 none ("")) false =
      (QueryResult.exhausted, waiting_schedule) :=
  ⟨nonTransientErrorHandling.1 ⟨none, []⟩
      (fun _ => NetOutcome.response 200 (some ("boom")) ("")) false
      (Exc.apiError ("boom")) rfl rfl,
   nonTransientErrorHandling.1 ⟨none, []⟩
      (fun _ => NetOutcome.response 200 none ("data")) true Exc.authError rfl rfl,
   nonTransientErrorHandling.2 ⟨none, []⟩
      (fun _ => NetOutcome.response 404 none ("")) false 404 (fun _ => rfl)⟩

/-- C4: for every client, attempt-outcome sequence and authorization mode in
which every attempt fails with an exception caught by the retry loop, the
query sleeps through exactly the entries of the schedule, in order, before
the successive retries, and then ends with the fatal RuntimeError of
wait_for_retry instead of retrying further; the schedule is five 60-second,
three 600-second and three 3600-second steps, so there are exactly
len(schedule) = 11 retries. -/
theorem rawQueryRetryExhaustion (client : RobustNumerAPI)
    (outcomes : Nat → NetOutcome) (authorization : Bool)
    (h : ∀ i, attemptTransient client.token authorization (outcomes i) = true) :
    rawQuery client outcomes authorization =
      (QueryResult.exhausted, waiting_schedule) ∧
    waiting_schedule = [60, 60, 60, 60, 60, 600, 600, 600, 3600, 3600, 3600] ∧
    waiting_schedule.length = 11 := by
  refine ⟨?_, rfl, rfl⟩
  have h2 := rawQueryGo_transient client.token outcomes authorization h
    (waiting_schedule.length + 1) 0 (by omega) (by omega)
  simpa [rawQuery] using h2

/-- C4 witness: a query whose every attempt fails with a transport-layer
error sleeps through exactly the hardcoded schedule and then fails fatally. -/
theorem rawQueryRetryExhaustionWitness :
    rawQuery ⟨none, []⟩ (fun _ => NetOutcome.connFail) false =
      (QueryResult.exhausted, waiting_schedule) ∧
    waiting_schedule = [60, 60, 60, 60, 60, 600, 600, 600, 3600, 3600, 3600] ∧
    waiting_schedule.length = 11 :=
  rawQueryRetryExhaustion ⟨none, []⟩ (fun _ => NetOutcome.connFail) false
    (fun _ => rfl)

/-- C5: the dataset change check is asymmetric on file presence: whenever the
new-data file is unreadable it returns false (not loadable, never "changed"),
and whenever only the old-data file is unreadable it returns true
unconditionally, for every pair of paths, every file system and every
data_type filter. -/
theorem checkDatasetFilePresence (fs : String → Option (List Row))
    (filename_old filename_new : String) (data_type : Option String) :
    (fs filename_new = none →
      check_dataset fs filename_old filename_new data_type = false) ∧
    (fs filename_old = none → fs filename_new ≠ none →
      check_dataset fs filename_old filename_new data_type = true) := by
  constructor
  · intro h
    simp [check_dataset, h]
  · intro ho hn
    rcases hnew : fs filename_new with _ | d
    · exact absurd hnew hn
    · simp [check_dataset, ho, hnew]

/-- C5 witness: with only the old file present the check returns true, and
with only the new file missing the check returns false. -/
theorem checkDatasetFilePresenceWitness :
    check_dataset fsOldMissingW ("old") ("new") none = true ∧
    check_dataset fsNewMissingW ("old") ("new") none = false :=
  ⟨(checkDatasetFilePresence fsOldMissingW ("old") ("new") none).2 (by decide)
      (by decide),
   (checkDatasetFilePresence fsNewMissingW ("old") ("new") none).1 (by decide)⟩

/-- C6: for two readable datasets, the change check returns false when the
datasets hold identical rows in any order (with distinct row identifiers, so
that sorting by the identifier aligns them), returns true when the filtered
row counts agree but the identifier-sorted row lists differ in any cell, and
returns true whenever the filtered row counts differ. -/
theorem checkDatasetContent (fs : String → Option (List Row))
    (filename_old filename_new : String) (data_type : Option String)
    (o n : List Row) (ho : fs filename_old = some o)
    (hn : fs filename_new = some n) :
    (o.Perm n → (o.map Row.id).Nodup →
      check_dataset fs filename_old filename_new data_type = false) ∧
    ((filterData data_type o).length = (filterData data_type n).length →
      sortById (filterData data_type n) ≠ sortById (filterData data_type o) →
      check_dataset fs filename_old filename_new data_type = true) ∧
    ((filterData data_type o).length ≠ (filterData data_type n).length →
      check_dataset fs filename_old filename_new data_type = true) := by
  refine ⟨?_, ?_, ?_⟩
  · intro hp hnd
    have hpf : (filterData data_type o).Perm (filterData data_type n) := by
      rcases data_type with _ | t
      · exact hp
      · exact hp.filter _
    have hlen := hpf.length_eq
    have hsub : (filterData data_type o).Sublist o := by
      rcases data_type with _ | t
      · exact List.Sublist.refl o
      · exact List.filter_sublist o
    have hndf : ((filterData data_type o).map Row.id).Nodup :=
      hnd.sublist (hsub.map Row.id)
    have hsort := sortById_eq_of_perm hpf hndf
    simp [check_dataset, ho, hn, hlen, hsort]
  · intro hlen hne
    simp [check_dataset, ho, hn, hlen, hne]
  · intro hlen
    simp [check_dataset, ho, hn, hlen]

/-- C6 witness: two concrete datasets with the same rows in swapped order are
reported unchanged, and two with a single differing cell are reported
changed. -/
theorem checkDatasetContentWitness :
    check_dataset fsPermW ("old") ("new") none = false ∧
    check_dataset fsDiffW ("old") ("new") none = true :=
  ⟨(checkDatasetContent fsPermW ("old") ("new") none
      [⟨1, "live", [5]⟩, ⟨2, "live", [6]⟩] [⟨2, "live", [6]⟩, ⟨1, "live", [5]⟩]
      (by decide) (by decide)).1 (by decide) (by decide),
   (checkDatasetContent fsDiffW ("old") ("new") none
      [⟨1, "live", [5]⟩, ⟨2, "live", [6]⟩] [⟨2, "live", [7]⟩, ⟨1, "live", [5]⟩]
      (by decide) (by decide)).2.1 (by decide) (by decide)⟩

/-- C7: the sleep loop of utils.wait_until cuts the remaining time into chunks
of at most one second each, whose total is the whole requested duration, and
the chunk list is a function of the duration alone: the loop consults no
cancellation flag, so a run over a 10-second span always performs all ten
1-second sleeps regardless of any cancellation request (cancellation only
takes effect through the InterruptedException raised asynchronously by the
signal handler). -/
theorem waitUntilNoFlagCheck :
    (∀ remaining : Nat,
        ((waitUntilChunks remaining).all (fun c => decide (c ≤ 1)) = true) ∧
        (waitUntilChunks remaining).sum = remaining) ∧
    waitUntilChunks 10 = List.replicate 10 1 := by
  constructor
  · intro remaining
    induction remaining with
    | zero => exact ⟨rfl, rfl⟩
    | succ d ih =>
      have hmin : min 1 (d + 1) = 1 :=
        Nat.min_eq_left (Nat.succ_le_succ (Nat.zero_le d))
      constructor
      · simp only [waitUntilChunks, List.all_cons, ih.1, Bool.and_true, hmin]
        decide
      · simp only [waitUntilChunks, List.sum_cons, ih.2, hmin]
        omega
  · decide

/-- C8: whenever the fine-poll loop of wait_till_next_round returns a
response, that response reports a round number different from the number
observed at the start of the wait cycle, it is the response delivered by the
poll that ended the loop, and the blocking wait performed by each iteration
is computed by waitAction from the closeTime of the response that iteration
examined — the latest reported closeTime, not the original one — together
with the clock at that iteration. -/
theorem waitTillNextRoundSpec (responses : Nat → RoundInfo) (nows : Nat → Int)
    (cfg : Config) (fuel : Nat) (r : RoundInfo) (ws : List WaitAction)
    (h : wait_till_next_round responses nows cfg fuel = (some r, ws)) :
    r.number ≠ (responses 0).number ∧
    r = responses ws.length ∧
    ws = (List.range ws.length).map
      (fun j => waitAction cfg (responses j).closeTime (nows j)) := by
  have h2 := waitLoop_spec responses nows cfg (responses 0).number fuel 0 r ws h
  simpa using h2

/-- C8 witness: a concrete wait cycle in which the second poll moves the
closeTime from 1000 to 2000 and the third poll reports the new round: the
second wait is computed from the updated closeTime 2000 (a wait_until
targeting 2000 - 355 = 1645), not from the stale 1000, and the returned
response is the first with a different round number. -/
theorem waitTillNextRoundSpecWitness :
    (⟨101, 5000⟩ : RoundInfo).number ≠ (watcherResponsesW 0).number ∧
    (⟨101, 5000⟩ : RoundInfo) =
      watcherResponsesW ([WaitAction.sleep 60, WaitAction.waitUntil 1645].length) ∧
    [WaitAction.sleep 60, WaitAction.waitUntil 1645] =
      (List.range ([WaitAction.sleep 60, WaitAction.waitUntil 1645].length)).map
        (fun j => waitAction watcherCfgW (watcherResponsesW j).closeTime
          (watcherNowsW j)) :=
  waitTillNextRoundSpec watcherResponsesW watcherNowsW watcherCfgW 5
    ⟨101, 5000⟩ [WaitAction.sleep 60, WaitAction.waitUntil 1645] (by decide)

/-- C9: the per-attempt wait durations slept before the retries of raw_query
are the entries of the hardcoded waiting_schedule of utils.wait_for_retry for
every configured retry_wait_schedule of the client, and in particular for the
configured schedule [1, 2] the sleep before the first retry is 60 seconds,
not the configured 1: the retry_wait_schedule option passed to the client
constructor is never consulted. -/
theorem retryScheduleIgnored :
    (∀ sched : List Nat,
        rawQuery ⟨none, sched⟩ (fun _ => NetOutcome.connFail) false =
          (QueryResult.exhausted, waiting_schedule)) ∧
    (rawQuery ⟨none, [1, 2]⟩ (fun _ => NetOutcome.connFail) false).2.headD 0 = 60 ∧
    (rawQuery ⟨none, [1, 2]⟩ (fun _ => NetOutcome.connFail) false).2 ≠ [1, 2] := by
  refine ⟨?_, by decide, by decide⟩
  intro sched
  have h2 := rawQueryGo_transient (none : Option (String × String))
    (fun _ => NetOutcome.connFail) false (fun _ => rfl)
    (waiting_schedule.length + 1) 0 (by omega) (by omega)
  simpa [rawQuery] using h2

/-- C10: whenever the last_round_trained field of the persistent state is
unset, the new-training-data check returns true for every file system (hence
without reading or comparing any dataset file), every configuration and every
round number. -/
theorem checkNewTrainingDataFreshState (fs : String → Option (List Row))
    (cfg : Config) (s : PersistentState) (round_number : Nat)
    (h : s.last_round_trained = none) :
    checkNewTrainingData fs cfg s round_number = true := by
  unfold checkNewTrainingData
  rw [h]

/-- C10 witness: with a state whose trained field is unset and a file system
with no readable file at all, the check still returns true. -/
theorem checkNewTrainingDataFreshStateWitness :
    checkNewTrainingData (fun _ => none) ⟨"./data", true, 360, 60, []⟩
      ⟨some 3, none⟩ 7 = true :=
  checkNewTrainingDataFreshState (fun _ => none) ⟨"./data", true, 360, 60, []⟩
    ⟨some 3, none⟩ 7 rfl
